import Mathlib

/-!
Shallow embedding of the session-state coordinator of the Tenjin-Bot client
(`src/pages/MainApp.tsx`, `src/components/ChatArea.tsx`,
`src/components/MessageBubble.tsx`, `src/types.ts`).

React `useState` cells become fields of an explicit `AppState` record and each
handler becomes a state-transforming function.  JavaScript strings are embedded
as Lean `String`s (`slice(0, 80)` is `String.take 80`, `length` is
`String.length`); JavaScript truthiness tests on `string | null` values
(`if (currentConversationId)`, `if (conversation.folder)`) are embedded as
"is `some` of a non-empty string".
-/

namespace Tenjin

/-- Author field of a chat message: `'ai' | 'user'` in `types.ts`. -/
inductive Author where
  | ai : Author
  | user : Author
deriving DecidableEq

/-- The `Message` record of `types.ts`.  `MainApp` normalises the optional
`pinned` / `expanded` flags to concrete booleans at initialisation, so they are
embedded as `Bool`.  The `conversationId` back-reference used by
`displayedMessages` is optional (messages sent before any conversation exists
carry none). -/
structure Message where
  id : String
  author : Author
  text : String
  pinned : Bool
  expanded : Bool
  createdAt : String
  conversationId : Option String
deriving DecidableEq

/-- The `QuestionItem` record of `types.ts` (a conversation record): optional
fields become `Option`. -/
structure QuestionItem where
  id : String
  title : String
  checked : Option Bool
  folder : Option String
  messageId : Option String
deriving DecidableEq

/-- The `useState` cells of `MainApp` that participate in session-state
coordination (presentation-only cells `leftCollapsed` / `pinOpen` are
omitted). -/
structure AppState where
  messages : List Message
  questions : List QuestionItem
  folders : List String
  currentConversationId : Option String
  isNewChatMode : Bool
  activeFolder : String
deriving DecidableEq

/-- JavaScript truthiness of a `string | null` / `string | undefined` value:
truthy exactly when present and non-empty. -/
def optTruthy : Option String → Bool
  | some s => !(s == "")
  | none => false

/-- The `displayedMessages` computed value of `MainApp` (lines 25-29):
`isNewChatMode ? [] : currentConversationId ? filter(...) : messages`. -/
def displayedMessages (s : AppState) : List Message :=
  if s.isNewChatMode then []
  else match s.currentConversationId with
    | some c => if c == "" then s.messages
                else s.messages.filter (fun m => m.conversationId == some c)
    | none => s.messages

/-- JavaScript `Array.prototype.findIndex` over the message store: the index of
the first message with the given id, `-1` when absent. -/
def findIndexJS (msgs : List Message) (id : String) : Int :=
  match msgs.findIdx? (fun m => m.id == id) with
  | some i => (i : Int)
  | none => -1

/-- The `jumpToMessage` handler of `MainApp` (lines 31-36), embedded as the
message whose rendered row it scrolls to (`none` when nothing is scrolled).
The handler computes `idx = messages.findIndex(...)` over the FULL store and
indexes `document.querySelectorAll('.msg-row')[idx]`; `ChatArea` renders one
`.msg-row` element (the root of `MessageBubble`) per element of
`displayedMessages`, in order, so the scrolled element is entry `idx` of the
current view when `0 ≤ idx < length`, and nothing otherwise. -/
def jumpToMessage (s : AppState) (id : String) : Option Message :=
  let idx := findIndexJS s.messages id
  if idx < 0 then none
  else (displayedMessages s).get? idx.toNat

/-- Title derivation inside `handleNewQuestionAnswer` (line 55):
`questionText.slice(0, 80) + (questionText.length > 80 ? '...' : '')`. -/
def deriveTitle (questionText : String) : String :=
  questionText.take 80 ++ (if questionText.length > 80 then "..." else "")

/-- The `handleNewQuestionAnswer` handler of `MainApp` (lines 42-64).  It
returns the conversation id alongside the updated state.  The fresh id
`q${Date.now()}` is passed in as the `newQuestionId` parameter. -/
def handleNewQuestionAnswer (s : AppState)
    (userMessageId questionText newQuestionId : String) : AppState × String :=
  let s1 : AppState := { s with isNewChatMode := false }
  if optTruthy s1.currentConversationId then
    (s1, s1.currentConversationId.getD "")
  else
    let newQuestion : QuestionItem :=
      { id := newQuestionId
        title := deriveTitle questionText
        checked := none
        folder := some s1.activeFolder
        messageId := some userMessageId }
    ({ s1 with
        questions := s1.questions ++ [newQuestion]
        currentConversationId := some newQuestionId },
     newQuestionId)

/-- The `handleNewChat` handler of `MainApp` (lines 66-71). -/
def handleNewChat (s : AppState) : AppState :=
  { s with currentConversationId := none, isNewChatMode := true }

/-- The `handleSelectMessage` handler of `MainApp` (lines 73-87). -/
def handleSelectMessage (s : AppState) (messageId : String) : AppState :=
  let s1 : AppState := { s with isNewChatMode := false }
  match s1.questions.find? (fun q => q.messageId == some messageId) with
  | some conversation =>
      let s2 : AppState := { s1 with currentConversationId := some conversation.id }
      if optTruthy conversation.folder then
        { s2 with activeFolder := conversation.folder.getD "" }
      else s2
  | none => s1

/-- The `handleCreateProject` handler of `MainApp` (lines 89-98). -/
def handleCreateProject (s : AppState) (projectName : String) : AppState :=
  let s1 : AppState :=
    if s.folders.contains projectName then s
    else { s with folders := s.folders ++ [projectName] }
  handleNewChat { s1 with activeFolder := projectName }

/-- The `handleRenameQuestion` handler of `MainApp` (lines 100-104). -/
def handleRenameQuestion (s : AppState) (questionId newTitle : String) : AppState :=
  { s with
      questions := s.questions.map
        (fun q => if q.id == questionId then { q with title := newTitle } else q) }

/-- The `handleDeleteQuestion` handler of `MainApp` (lines 106-112). -/
def handleDeleteQuestion (s : AppState) (questionId : String) : AppState :=
  let s1 : AppState :=
    { s with questions := s.questions.filter (fun q => !(q.id == questionId)) }
  if s1.currentConversationId == some questionId then
    { s1 with currentConversationId := none }
  else s1

/-- The `togglePin` handler of `ChatArea` (lines 34-36), acting on the message
store through `setMessages`. -/
def togglePin (msgs : List Message) (id : String) : List Message :=
  msgs.map (fun m => if m.id == id then { m with pinned := !m.pinned } else m)

/-- The `toggleExpand` handler of `ChatArea` (lines 31-33). -/
def toggleExpand (msgs : List Message) (id : String) : List Message :=
  msgs.map (fun m => if m.id == id then { m with expanded := !m.expanded } else m)

/-- Modelled from the spec: the `PinBoard` component source is not under
`src/` (only its call site, `MainApp` line 151, which passes the FULL message
store).  Per the spec it shows the ordered sequence of all messages with
`pinned = true`, in Message Store order, independent of current mode. -/
def pinnedProjection (msgs : List Message) : List Message :=
  msgs.filter (fun m => m.pinned)

/-- The initial session state of `MainApp` (lines 12-21), parametrised by the
seed data of `../data` (whose contents are not under `src/`): messages are
normalised with `pinned: false, expanded: false`, the folder list starts as
`['General', 'Follow-ups', 'Notes']`, no conversation is active, new-chat mode
is on and the active folder is `'General'`. -/
def initialState (seedMessages : List Message) (seedQuestions : List QuestionItem) :
    AppState :=
  { messages := seedMessages.map (fun m => { m with pinned := false, expanded := false })
    questions := seedQuestions
    folders := ["General", "Follow-ups", "Notes"]
    currentConversationId := none
    isNewChatMode := true
    activeFolder := "General" }

/-- Iterated `handleNewQuestionAnswer` calls (a session's sequence of answered
questions): each list entry is `(userMessageId, questionText, newQuestionId)`. -/
def recordAnswerSeq (s : AppState) (calls : List (String × String × String)) : AppState :=
  calls.foldl (fun st c => (handleNewQuestionAnswer st c.1 c.2.1 c.2.2).1) s

/-- Session states reachable from the initial state by the Conversation Router
operations of `MainApp`. -/
inductive Reachable : AppState → Prop where
  | init (ms : List Message) (qs : List QuestionItem) : Reachable (initialState ms qs)
  | record (s : AppState) (u t n : String) :
      Reachable s → Reachable (handleNewQuestionAnswer s u t n).1
  | newChat (s : AppState) : Reachable s → Reachable (handleNewChat s)
  | select (s : AppState) (mid : String) :
      Reachable s → Reachable (handleSelectMessage s mid)
  | createProject (s : AppState) (p : String) :
      Reachable s → Reachable (handleCreateProject s p)
  | rename (s : AppState) (qid nt : String) :
      Reachable s → Reachable (handleRenameQuestion s qid nt)
  | delete (s : AppState) (qid : String) :
      Reachable s → Reachable (handleDeleteQuestion s qid)

/-- The registry invariant of the spec's session state: an active conversation
id always names a record of the Conversation Registry. -/
def registryInv (s : AppState) : Prop :=
  ∀ c : String, s.currentConversationId = some c → ∃ q ∈ s.questions, q.id = c

/-! Concrete session states used by counterexamples and witnesses. -/

/-- A user message belonging to conversation `c1`. -/
def msgA : Message := ⟨"m1", .user, "hi", false, false, "t1", some "c1"⟩

/-- An assistant message belonging to conversation `c2`. -/
def msgB : Message := ⟨"m2", .ai, "yo", false, false, "t2", some "c2"⟩

/-- A conversation record anchored at `msgA`. -/
def qRec : QuestionItem := ⟨"q1", "T", none, some "General", some "m1"⟩

/-- A session in which conversation `q1` is active (new-chat mode off). -/
def stActive : AppState := ⟨[msgA, msgB], [qRec], ["General"], some "q1", false, "General"⟩

/-- A session viewing conversation `c2` only, with both messages in the store. -/
def stFiltered : AppState := ⟨[msgA, msgB], [], ["General"], some "c2", false, "General"⟩

/-- The blank initial session (empty seed data): new-chat mode, no active
conversation. -/
def stFresh : AppState := initialState [] []

/-! Helper lemmas. -/

theorem forall2_map_self {α : Type} (f : α → α) (R : α → α → Prop) :
    ∀ l : List α, (∀ a ∈ l, R a (f a)) → List.Forall₂ R l (l.map f)
  | [], _ => List.Forall₂.nil
  | a :: l, h =>
      List.Forall₂.cons (h a (by simp))
        (forall2_map_self f R l (fun b hb => h b (by simp [hb])))

theorem map_eq_self_of {α : Type} (f : α → α) :
    ∀ l : List α, (∀ a ∈ l, f a = a) → l.map f = l
  | [], _ => rfl
  | a :: l, h => by
      rw [List.map_cons, h a (by simp), map_eq_self_of f l (fun b hb => h b (by simp [hb]))]

/-- Claim C5: the derived conversation title is the first 80 characters of the
question text, with an ellipsis marker appended exactly when the text is
longer than 80 characters. -/
theorem deriveTitle_spec (t : String) :
    (t.length ≤ 80 → deriveTitle t = t) ∧
    (80 < t.length →
      deriveTitle t = t.take 80 ++ "..." ∧ (t.take 80).length = 80 ∧
      (t.take 80).data <+: t.data) := by
  constructor
  · intro h
    apply String.ext
    rw [deriveTitle, if_neg (Nat.not_lt.mpr h)]
    simp only [String.data_append, String.data_take]
    have hd : t.data.length ≤ 80 := by rw [String.length_data]; exact h
    simp [List.take_of_length_le hd]
  · intro h
    refine ⟨by simp [deriveTitle, h], ?_, ?_⟩
    · have hd : 80 ≤ t.data.length := by rw [String.length_data]; exact Nat.le_of_lt h
      rw [← String.length_data, String.data_take, List.length_take, Nat.min_eq_left hd]
    · simp only [String.data_take]
      exact List.take_prefix 80 t.data

/-- Claim C5 witness: a 100-character text yields its 80-character prefix plus
the ellipsis marker; a 40-character text is used unchanged. -/
theorem deriveTitle_spec_witness :
    deriveTitle (String.mk (List.replicate 100 'a'))
        = (String.mk (List.replicate 100 'a')).take 80 ++ "..." ∧
    deriveTitle (String.mk (List.replicate 40 'b')) = String.mk (List.replicate 40 'b') :=
  ⟨((deriveTitle_spec (String.mk (List.replicate 100 'a'))).2 (by decide)).1,
   (deriveTitle_spec (String.mk (List.replicate 40 'b'))).1 (by decide)⟩

/-- Claim C6: `handleNewChat`, from any state, clears the active-conversation
pointer and enters new-chat mode without touching the Message Store or the
Conversation Registry; its view is empty, and the all-history view of the
resulting session (new-chat flag off, no active conversation) still shows every
stored message in store order. -/
theorem handleNewChat_spec (s : AppState) :
    (handleNewChat s).currentConversationId = none ∧
    (handleNewChat s).isNewChatMode = true ∧
    (handleNewChat s).messages = s.messages ∧
    (handleNewChat s).questions = s.questions ∧
    displayedMessages (handleNewChat s) = [] ∧
    displayedMessages { handleNewChat s with isNewChatMode := false } = s.messages := by
  refine ⟨rfl, rfl, rfl, rfl, ?_, ?_⟩ <;> simp [handleNewChat, displayedMessages]

/-- Claim C9: `handleRenameQuestion` changes only the title of the matching
conversation record: id, folder, anchor and checked flag are preserved, every
non-matching record is unchanged, the rest of the session state is untouched,
and renaming an unknown id leaves the registry unchanged. -/
theorem handleRenameQuestion_spec (s : AppState) (qid newTitle : String) :
    (handleRenameQuestion s qid newTitle).messages = s.messages ∧
    (handleRenameQuestion s qid newTitle).folders = s.folders ∧
    (handleRenameQuestion s qid newTitle).currentConversationId = s.currentConversationId ∧
    (handleRenameQuestion s qid newTitle).isNewChatMode = s.isNewChatMode ∧
    (handleRenameQuestion s qid newTitle).activeFolder = s.activeFolder ∧
    List.Forall₂ (fun q q' : QuestionItem =>
        q'.id = q.id ∧ q'.folder = q.folder ∧ q'.messageId = q.messageId ∧
        q'.checked = q.checked ∧ (q.id ≠ qid → q' = q))
      s.questions (handleRenameQuestion s qid newTitle).questions ∧
    ((∀ q ∈ s.questions, q.id ≠ qid) →
      (handleRenameQuestion s qid newTitle).questions = s.questions) := by
  refine ⟨rfl, rfl, rfl, rfl, rfl, ?_, ?_⟩
  · apply forall2_map_self
    intro q _
    by_cases hq : q.id = qid <;> simp [hq]
  · intro hall
    apply map_eq_self_of
    intro q hq
    simp [hall q hq]

/-- Claim C9 witness: renaming an id absent from the registry leaves the
registry unchanged. -/
theorem handleRenameQuestion_spec_witness :
    (handleRenameQuestion stActive "zz" "t").questions = stActive.questions :=
  (handleRenameQuestion_spec stActive "zz" "t").2.2.2.2.2.2 (by decide)

/-- Claim C2 counterexample: in the blank initial session (new-chat mode on),
`handleSelectMessage` with a message id that anchors no conversation still
flips `isNewChatMode` to `false`, so the session state is NOT left unchanged. -/
theorem handleSelectMessage_changes_state :
    stFresh.questions.find? (fun q => q.messageId == some "mX") = none ∧
    stFresh.isNewChatMode = true ∧
    (handleSelectMessage stFresh "mX").isNewChatMode = false ∧
    handleSelectMessage stFresh "mX" ≠ stFresh := by
  decide

/-- Claim C2 amended: for a message id that anchors no conversation,
`handleSelectMessage` leaves messages, questions, folders, the active
conversation pointer and the active folder unchanged, but unconditionally
clears the new-chat flag. -/
theorem handleSelectMessage_notFound (s : AppState) (mid : String)
    (h : s.questions.find? (fun q => q.messageId == some mid) = none) :
    handleSelectMessage s mid = { s with isNewChatMode := false } := by
  simp [handleSelectMessage, h]

/-- Claim C2 amended witness. -/
theorem handleSelectMessage_notFound_witness :
    handleSelectMessage stFresh "mX" = { stFresh with isNewChatMode := false } :=
  handleSelectMessage_notFound stFresh "mX" (by decide)

/-- Claim C1 counterexample: deleting the currently active conversation does
NOT transition the session to new-chat mode — the new-chat flag stays `false`
and the visible message list becomes the full store (all-history), not the
empty sequence. -/
theorem handleDeleteQuestion_active_not_newChat :
    stActive.currentConversationId = some "q1" ∧
    (handleDeleteQuestion stActive "q1").currentConversationId = none ∧
    (handleDeleteQuestion stActive "q1").isNewChatMode = false ∧
    displayedMessages (handleDeleteQuestion stActive "q1") ≠ [] := by
  decide

/-- Claim C1 amended: `handleDeleteQuestion` removes the record and leaves the
message store, folders, active folder and new-chat flag unchanged; the active
conversation pointer is reset to `none` exactly when the deleted id was the
active one, in which case (the new-chat flag being off) the session lands in
the all-history representation: the visible list is the full message store,
not the empty new-chat view. -/
theorem handleDeleteQuestion_spec (s : AppState) (qid : String) :
    (handleDeleteQuestion s qid).questions
        = s.questions.filter (fun q => !(q.id == qid)) ∧
    (handleDeleteQuestion s qid).messages = s.messages ∧
    (handleDeleteQuestion s qid).folders = s.folders ∧
    (handleDeleteQuestion s qid).activeFolder = s.activeFolder ∧
    (handleDeleteQuestion s qid).isNewChatMode = s.isNewChatMode ∧
    (handleDeleteQuestion s qid).currentConversationId
        = (if s.currentConversationId = some qid then none else s.currentConversationId) ∧
    (s.currentConversationId = some qid → s.isNewChatMode = false →
        displayedMessages (handleDeleteQuestion s qid) = s.messages) := by
  refine ⟨?_, ?_, ?_, ?_, ?_, ?_, ?_⟩
  case refine_7 =>
    intro h1 h2
    simp [handleDeleteQuestion, displayedMessages, h1, h2]
  all_goals by_cases h : s.currentConversationId = some qid <;>
    simp [handleDeleteQuestion, h]

/-- Claim C1 amended witness: deleting the active conversation of `stActive`
leaves the full store visible. -/
theorem handleDeleteQuestion_spec_witness :
    displayedMessages (handleDeleteQuestion stActive "q1") = stActive.messages :=
  (handleDeleteQuestion_spec stActive "q1").2.2.2.2.2.2 rfl rfl

/-- Claim C10: `handleNewQuestionAnswer` creates a conversation whenever the
active-conversation pointer is empty, with no condition on the new-chat flag:
the new record is tagged with the active folder, made active, and its id is
returned. -/
theorem recordAnswer_gated_on_pointer (s : AppState) (u t n : String)
    (h : s.currentConversationId = none) :
    (handleNewQuestionAnswer s u t n).2 = n ∧
    (handleNewQuestionAnswer s u t n).1.questions
        = s.questions ++ [{ id := n, title := deriveTitle t, checked := none,
                            folder := some s.activeFolder, messageId := some u }] ∧
    (handleNewQuestionAnswer s u t n).1.currentConversationId = some n ∧
    (handleNewQuestionAnswer s u t n).1.messages = s.messages := by
  refine ⟨?_, ?_, ?_, ?_⟩ <;> simp [handleNewQuestionAnswer, optTruthy, h]

/-- Claim C10 witness: after deleting the active conversation of `stActive`
the session has the new-chat flag off (all-history representation) and an
empty pointer, yet a `handleNewQuestionAnswer` call still creates and returns
a fresh conversation. -/
theorem recordAnswer_gated_on_pointer_witness :
    (handleDeleteQuestion stActive "q1").isNewChatMode = false ∧
    (handleDeleteQuestion stActive "q1").currentConversationId = none ∧
    (handleNewQuestionAnswer (handleDeleteQuestion stActive "q1") "m9" "next" "q9").2
        = "q9" :=
  ⟨by decide, by decide,
   (recordAnswer_gated_on_pointer (handleDeleteQuestion stActive "q1")
      "m9" "next" "q9" (by decide)).1⟩

theorem recordAnswer_active (s : AppState) (c u t n : String)
    (h : s.currentConversationId = some c) (hc : c ≠ "") :
    handleNewQuestionAnswer s u t n = ({ s with isNewChatMode := false }, c) := by
  simp [handleNewQuestionAnswer, optTruthy, h, hc]

theorem recordAnswerSeq_active (c : String) (hc : c ≠ "") :
    ∀ (calls : List (String × String × String)) (s : AppState),
      s.currentConversationId = some c →
      (recordAnswerSeq s calls).currentConversationId = some c ∧
      (recordAnswerSeq s calls).questions = s.questions ∧
      (recordAnswerSeq s calls).messages = s.messages
  | [], _, h => ⟨h, rfl, rfl⟩
  | call :: tl, s, h => by
      have hstep := recordAnswer_active s c call.1 call.2.1 call.2.2 h hc
      have hfold : recordAnswerSeq s (call :: tl)
          = recordAnswerSeq { s with isNewChatMode := false } tl := by
        simp [recordAnswerSeq, hstep]
      rw [hfold]
      exact recordAnswerSeq_active c hc tl { s with isNewChatMode := false } h

/-- Claim C4: with a (non-empty) active conversation id `c`,
`handleNewQuestionAnswer` returns `c` and adds no record; from new-chat mode
with no active conversation it creates exactly one record tagged with the
active folder, makes it active and returns its id, and every further
`handleNewQuestionAnswer` call of the session adds no record and returns that
same id. -/
theorem recordAnswer_session_identity (s : AppState) (u t n : String) :
    (∀ c : String, s.currentConversationId = some c → c ≠ "" →
        handleNewQuestionAnswer s u t n = ({ s with isNewChatMode := false }, c)) ∧
    (s.isNewChatMode = true → s.currentConversationId = none → n ≠ "" →
      (handleNewQuestionAnswer s u t n).2 = n ∧
      (handleNewQuestionAnswer s u t n).1.currentConversationId = some n ∧
      (handleNewQuestionAnswer s u t n).1.questions
          = s.questions ++ [{ id := n, title := deriveTitle t, checked := none,
                              folder := some s.activeFolder, messageId := some u }] ∧
      ∀ rest : List (String × String × String),
        (recordAnswerSeq (handleNewQuestionAnswer s u t n).1 rest).questions
            = (handleNewQuestionAnswer s u t n).1.questions ∧
        ∀ u2 t2 n2 : String,
          (handleNewQuestionAnswer
              (recordAnswerSeq (handleNewQuestionAnswer s u t n).1 rest) u2 t2 n2).2
            = n) := by
  constructor
  · intro c h hc
    exact recordAnswer_active s c u t n h hc
  · intro _ h hn
    have hcre : (handleNewQuestionAnswer s u t n).1.currentConversationId = some n ∧
        (handleNewQuestionAnswer s u t n).2 = n ∧
        (handleNewQuestionAnswer s u t n).1.questions
          = s.questions ++ [{ id := n, title := deriveTitle t, checked := none,
                              folder := some s.activeFolder, messageId := some u }] := by
      refine ⟨?_, ?_, ?_⟩ <;> simp [handleNewQuestionAnswer, optTruthy, h]
    refine ⟨hcre.2.1, hcre.1, hcre.2.2, ?_⟩
    intro rest
    have hseq := recordAnswerSeq_active n hn rest (handleNewQuestionAnswer s u t n).1 hcre.1
    refine ⟨hseq.2.1, ?_⟩
    intro u2 t2 n2
    have := recordAnswer_active (recordAnswerSeq (handleNewQuestionAnswer s u t n).1 rest)
      n u2 t2 n2 hseq.1 hn
    rw [this]

/-- Claim C4 witness: in the blank session the first answered question returns
the fresh id `q1`, and after a further answered question the next call still
returns `q1`. -/
theorem recordAnswer_session_identity_witness :
    (handleNewQuestionAnswer stFresh "m1" "hello" "q1").2 = "q1" ∧
    (handleNewQuestionAnswer
        (recordAnswerSeq (handleNewQuestionAnswer stFresh "m1" "hello" "q1").1
          [("m2", "again", "q2")]) "m3" "more" "q3").2 = "q1" := by
  have h := (recordAnswer_session_identity stFresh "m1" "hello" "q1").2 rfl rfl (by decide)
  exact ⟨h.1, (h.2.2.2 [("m2", "again", "q2")]).2 "m3" "more" "q3"⟩

/-- Claim C3: `jumpToMessage` resolves the index in the FULL message store and
applies it to the rendered rows of the current (filtered) view.  In `stFiltered`
(conversation `c2` active, view = `[msgB]`): jumping to `m1` — absent from the
view — scrolls to `msgB` instead of reporting "not found", and jumping to `m2`
— present at view position 0 — scrolls nowhere because its store index 1 is out
of the view's range. -/
theorem jumpToMessage_store_index_bug :
    stFiltered.currentConversationId = some "c2" ∧
    (displayedMessages stFiltered).map Message.id = ["m2"] ∧
    (¬ ∃ m ∈ displayedMessages stFiltered, m.id = "m1") ∧
    jumpToMessage stFiltered "m1" = some msgB ∧
    jumpToMessage stFiltered "m2" = none := by
  decide

theorem togglePin_togglePin (msgs : List Message) (id : String) :
    togglePin (togglePin msgs id) id = msgs := by
  unfold togglePin
  rw [List.map_map]
  apply map_eq_self_of
  intro m _
  by_cases hm : (m.id == id) = true
  · simp only [Function.comp_apply, if_pos hm]
    rw [Bool.not_not]
  · simp only [Function.comp_apply, if_neg hm, if_neg hm]

theorem togglePin_of_countP_zero (msgs : List Message) (id : String)
    (h : msgs.countP (fun m => m.id == id) = 0) : togglePin msgs id = msgs := by
  unfold togglePin
  apply map_eq_self_of
  intro m hm
  have hnp := List.countP_eq_zero.mp h m hm
  simp only [Bool.not_eq_true] at hnp
  simp [hnp]

theorem pinnedProjection_cons (m : Message) (tl : List Message) :
    pinnedProjection (m :: tl)
      = if m.pinned then m :: pinnedProjection tl else pinnedProjection tl := by
  simp [pinnedProjection, List.filter_cons]

theorem togglePin_pinned_count : ∀ (msgs : List Message) (id : String),
    msgs.countP (fun m => m.id == id) = 1 →
    ((pinnedProjection (togglePin msgs id)).length = (pinnedProjection msgs).length + 1 ∨
     (pinnedProjection (togglePin msgs id)).length + 1 = (pinnedProjection msgs).length)
  | [], _, h => by simp at h
  | m :: tl, id, h => by
      by_cases hm : (m.id == id) = true
      · rw [List.countP_cons_of_pos _ tl hm] at h
        have htl : tl.countP (fun x => x.id == id) = 0 := by omega
        have hstep : togglePin (m :: tl) id = { m with pinned := !m.pinned } :: tl := by
          show (if (m.id == id) = true then _ else _) :: togglePin tl id = _
          rw [if_pos hm, togglePin_of_countP_zero tl id htl]
        rw [hstep, pinnedProjection_cons, pinnedProjection_cons]
        cases hp : m.pinned
        · simp [hp]
        · simp [hp]
      · rw [List.countP_cons_of_neg _ tl hm] at h
        have ih := togglePin_pinned_count tl id h
        have hstep : togglePin (m :: tl) id = m :: togglePin tl id := by
          show (if (m.id == id) = true then _ else _) :: togglePin tl id = _
          rw [if_neg hm]
        rw [hstep, pinnedProjection_cons, pinnedProjection_cons]
        cases hp : m.pinned <;> simp [hp] <;> omega

/-- Claim C8: for a message id occurring (exactly once, ids being unique in the
data model) in the store, two `togglePin` calls restore the store, and one
`togglePin` changes the length of the whole-store pin board projection by
exactly one. -/
theorem togglePin_spec (msgs : List Message) (id : String)
    (h : msgs.countP (fun m => m.id == id) = 1) :
    togglePin (togglePin msgs id) id = msgs ∧
    ((pinnedProjection (togglePin msgs id)).length = (pinnedProjection msgs).length + 1 ∨
     (pinnedProjection (togglePin msgs id)).length + 1 = (pinnedProjection msgs).length) :=
  ⟨togglePin_togglePin msgs id, togglePin_pinned_count msgs id h⟩

/-- Claim C8 witness: toggling `m1` in the two-message store. -/
theorem togglePin_spec_witness :
    togglePin (togglePin [msgA, msgB] "m1") "m1" = [msgA, msgB] ∧
    ((pinnedProjection (togglePin [msgA, msgB] "m1")).length
        = (pinnedProjection [msgA, msgB]).length + 1 ∨
     (pinnedProjection (togglePin [msgA, msgB] "m1")).length + 1
        = (pinnedProjection [msgA, msgB]).length) :=
  togglePin_spec [msgA, msgB] "m1" (by decide)

/-- Claim C7: in every session state reachable by the Conversation Router
operations, an active conversation id names a record of the Conversation
Registry. -/
theorem registry_invariant (s : AppState) (h : Reachable s) : registryInv s := by
  induction h with
  | init ms qs =>
      intro c hc
      simp [initialState] at hc
  | record s u t n _ ih =>
      intro c hc
      by_cases htr : optTruthy s.currentConversationId = true
      · have hq : (handleNewQuestionAnswer s u t n).1.questions = s.questions := by
          simp [handleNewQuestionAnswer, htr]
        have hp : (handleNewQuestionAnswer s u t n).1.currentConversationId
            = s.currentConversationId := by
          simp [handleNewQuestionAnswer, htr]
        rw [hq]
        rw [hp] at hc
        exact ih c hc
      · have hq : (handleNewQuestionAnswer s u t n).1.questions
            = s.questions ++ [{ id := n, title := deriveTitle t, checked := none,
                                folder := some s.activeFolder, messageId := some u }] := by
          simp [handleNewQuestionAnswer, htr]
        have hp : (handleNewQuestionAnswer s u t n).1.currentConversationId = some n := by
          simp [handleNewQuestionAnswer, htr]
        rw [hp] at hc
        cases hc
        rw [hq]
        refine ⟨{ id := n, title := deriveTitle t, checked := none,
                  folder := some s.activeFolder, messageId := some u }, ?_, rfl⟩
        simp
  | newChat s _ _ =>
      intro c hc
      simp [handleNewChat] at hc
  | select s mid _ ih =>
      intro c hc
      cases hfind : s.questions.find? (fun q => q.messageId == some mid) with
      | none =>
          have hq : (handleSelectMessage s mid).questions = s.questions := by
            simp [handleSelectMessage, hfind]
          have hp : (handleSelectMessage s mid).currentConversationId
              = s.currentConversationId := by
            simp [handleSelectMessage, hfind]
          rw [hq]
          rw [hp] at hc
          exact ih c hc
      | some conv =>
          have hq : (handleSelectMessage s mid).questions = s.questions := by
            by_cases hf : optTruthy conv.folder = true <;>
              simp [handleSelectMessage, hfind, hf]
          have hp : (handleSelectMessage s mid).currentConversationId = some conv.id := by
            by_cases hf : optTruthy conv.folder = true <;>
              simp [handleSelectMessage, hfind, hf]
          rw [hp] at hc
          cases hc
          rw [hq]
          exact ⟨conv, List.mem_of_find?_eq_some hfind, rfl⟩
  | createProject s p _ _ =>
      intro c hc
      have hp : (handleCreateProject s p).currentConversationId = none := rfl
      rw [hp] at hc
      exact absurd hc (by simp)
  | rename s qid nt _ ih =>
      intro c hc
      have hp : (handleRenameQuestion s qid nt).currentConversationId
          = s.currentConversationId := rfl
      rw [hp] at hc
      obtain ⟨q, hqmem, hqid⟩ := ih c hc
      refine ⟨if q.id == qid then { q with title := nt } else q,
        List.mem_map_of_mem _ hqmem, ?_⟩
      by_cases hq : (q.id == qid) = true
      · rw [if_pos hq]
        exact hqid
      · rw [if_neg hq]
        exact hqid
  | delete s qid _ ih =>
      intro c hc
      have hq : (handleDeleteQuestion s qid).questions
          = s.questions.filter (fun q => !(q.id == qid)) := by
        by_cases hb : (s.currentConversationId == some qid) = true <;>
          simp [handleDeleteQuestion, hb]
      by_cases hcc : s.currentConversationId = some qid
      · have hp : (handleDeleteQuestion s qid).currentConversationId = none := by
          simp [handleDeleteQuestion, hcc]
        rw [hp] at hc
        exact absurd hc (by simp)
      · have hp : (handleDeleteQuestion s qid).currentConversationId
            = s.currentConversationId := by
          simp [handleDeleteQuestion, hcc]
        rw [hp] at hc
        obtain ⟨q, hqmem, hqid⟩ := ih c hc
        rw [hq]
        refine ⟨q, ?_, hqid⟩
        rw [List.mem_filter]
        refine ⟨hqmem, ?_⟩
        have hne : c ≠ qid := fun he => hcc (by rw [← he]; exact hc)
        simp [hqid, hne]

/-- Claim C7 witness: the invariant holds after the first answered question of
the blank session, and the created id indeed names a registry record. -/
theorem registry_invariant_witness :
    ∃ q ∈ (handleNewQuestionAnswer stFresh "m1" "hello" "q1").1.questions, q.id = "q1" :=
  registry_invariant (handleNewQuestionAnswer stFresh "m1" "hello" "q1").1
    (Reachable.record stFresh "m1" "hello" "q1" (Reachable.init [] [])) "q1" (by decide)

end Tenjin
